import Mathlib

/-!
Verification of the SCALE transient-solution model.

This file gives a shallow embedding of the Python sources
(`tm_constants.py`, `tm_material.py`, `tm_fileops.py`, `transientmodel.py`)
into Lean 4.  Machine floats are idealised as rationals (`ℚ`); the one
transcendental operation (`np.exp` in `propagate_neutrons`) is modelled over
the reals with `Real.exp`.  Python code that can raise (`ZeroDivisionError`,
`IndexError`, unbound locals at `return`) is modelled with `Option`: `none`
marks the raise.  External capabilities (the CoolProp `PropsSI` lookups) are
passed in as explicit arguments.
-/

/-! ## Constants (`tm_constants.py`) -/

def TIMESTEP_MAGNITUDE : ℤ := -3

/-- `DELTA_T = 10**TIMESTEP_MAGNITUDE` (seconds), over the reals because it
feeds the exponential in `propagate_neutrons`. -/
noncomputable def DELTA_T : ℝ := (10 : ℝ) ^ TIMESTEP_MAGNITUDE

def INIT_NEUTRONS : ℚ := 10 ^ 10

def INIT_HEIGHT : ℚ := 53

def RAD : ℚ := 15

def NUM_AXIAL : ℕ := 4

def NUM_RADIAL : ℕ := 3

/-- Number of regions in the model: `NUM_AXIAL * NUM_RADIAL`. -/
def NUM_MATERIALS : ℕ := NUM_AXIAL * NUM_RADIAL

/-! ## Materials (`tm_material.py`) -/

/-- State of one material region, mirroring the fields set in
`Material.__init__` plus the placeholders it initialises. -/
structure Material where
  matnum : ℕ
  elems : List String
  ndens : List ℚ
  temp : ℚ
  height : ℚ
  base_height : ℚ
  radius : ℚ
  volume : ℚ
  base : ℚ
  mass : ℚ
  delta_temp : ℚ
  atoms : List ℚ
  pressure : ℚ
  deriving DecidableEq, Repr

/-- `Material.__init__`: geometry from the arguments, `volume`, `base`,
`mass`, `delta_temp` zero placeholders, `atoms = [0.0] * len(ndens)`,
atmospheric pressure.  The Python default `temp=300` is passed explicitly. -/
def mkMaterial (matnum : ℕ) (elems : List String) (ndens : List ℚ)
    (height base_height radius temp : ℚ) : Material :=
  { matnum := matnum
    elems := elems
    ndens := ndens
    temp := temp
    height := height
    base_height := base_height
    radius := radius
    volume := 0
    base := 0
    mass := 0
    delta_temp := 0
    atoms := List.replicate ndens.length 0
    pressure := 101325 }

namespace Material

/-- `append_volume_mass_init(volume, mass)` followed by the private
`__calc_init`: stores volume and mass, derives
`atoms = [nden * 1e24 * volume for nden in ndens]` and
`base = volume / height`.  The division raises `ZeroDivisionError` when
`height = 0`, modelled by `none`. -/
def append_volume_mass_init (volume mass : ℚ) (m : Material) : Option Material :=
  if m.height = 0 then none
  else some { m with
    volume := volume
    mass := mass
    atoms := m.ndens.map (fun nden => nden * (10 : ℚ) ^ 24 * volume)
    base := volume / m.height }

/-- `append_height(newheight)` followed by the private `__update`:
`height = newheight`, `volume = base * height`, then
`ndens = [atom * 1e-24 / volume for atom in atoms]`.  The density update
divides by `volume` and raises `ZeroDivisionError` exactly when
`base * newheight = 0`, modelled by `none`.  There is no validation of
`newheight` in the source. -/
def append_height (newheight : ℚ) (m : Material) : Option Material :=
  let vol := m.base * newheight
  if vol = 0 then none
  else some { m with
    height := newheight
    volume := vol
    ndens := m.atoms.map (fun atom => atom * ((10 : ℚ) ^ 24)⁻¹ / vol) }

/-- `calc_temp(fissions)`: `heatgen = fissions * 180 * 1.6022e-13`;
`spec_heat` comes from the CoolProp capability `PropsSI` and is passed in;
`newtemp = temp + heatgen / (mass / 1e3) / spec_heat`.  The chained
divisions raise exactly when `mass = 0` or `spec_heat = 0`. -/
def calc_temp (spec_heat fissions : ℚ) (m : Material) : Option Material :=
  let heatgen := fissions * 180 * (16022 / (10 : ℚ) ^ 17)
  if m.mass = 0 ∨ spec_heat = 0 then none
  else
    let newtemp := m.temp + heatgen / (m.mass / 1000) / spec_heat
    some { m with delta_temp := newtemp - m.temp, temp := newtemp }

/-- `expand()`: the isobaric expansion coefficient `alpha` comes from the
CoolProp capability and is passed in;
`delta_height = delta_temp * volume * alpha / base` (raises when
`base = 0`), then `append_height(height + delta_height)`. -/
def expand (alpha : ℚ) (m : Material) : Option Material :=
  if m.base = 0 then none
  else m.append_height (m.height + m.delta_temp * m.volume * alpha / m.base)

end Material

/-- Sequencing of successive `append_height` calls on one region. -/
def applyHeights (m : Material) : List ℚ → Option Material
  | [] => some m
  | h :: t => (m.append_height h).bind (fun m2 => applyHeights m2 t)

/-! ## Grid construction (`transientmodel.py`: `calc_heights`, `calc_radii`,
`set_materials`) -/

/-- `calc_heights(tot_height)`: `[ind * tot_height / NUM_AXIAL for ind in
range(1, NUM_AXIAL + 1)]`. -/
def calc_heights (tot_height : ℚ) : List ℚ :=
  (List.range' 1 NUM_AXIAL).map (fun ind => (ind : ℚ) * (tot_height / (NUM_AXIAL : ℚ)))

/-- `calc_radii(tot_rad)`: `[ind * tot_rad / NUM_RADIAL for ind in
range(1, NUM_RADIAL + 1)]`. -/
def calc_radii (tot_rad : ℚ) : List ℚ :=
  (List.range' 1 NUM_RADIAL).map (fun ind => (ind : ℚ) * (tot_rad / (NUM_RADIAL : ℚ)))

/-- Inner loop of `set_materials`: one row of regions at a fixed `height` and
`base_height`, one per radius, numbering regions with `mat_counter`.  When
`temps` is supplied the temperature is `temps[mat_counter - 1]` (the source
would raise `IndexError` on a short list; regions are always built with a
full-length list). -/
def set_materials_row (elems : List String) (ndens : List ℚ)
    (height base_height : ℚ) (temps : Option (List ℚ)) (counter : ℕ) :
    List ℚ → List Material
  | [] => []
  | radius :: rest =>
    let m := match temps with
      | some ts => mkMaterial counter elems ndens height base_height radius
          (ts.getD (counter - 1) 0)
      | none => mkMaterial counter elems ndens height base_height radius 300
    m :: set_materials_row elems ndens height base_height temps (counter + 1) rest

/-- Outer loop of `set_materials`: `base_height` starts at 0 and is set to the
previous row's (cumulative) height after each row; `mat_counter` continues
across rows. -/
def set_materials_rows (elems : List String) (ndens : List ℚ)
    (radii : List ℚ) (temps : Option (List ℚ)) (counter : ℕ) (base_height : ℚ) :
    List ℚ → List (List Material)
  | [] => []
  | height :: rest =>
    set_materials_row elems ndens height base_height temps counter radii ::
      set_materials_rows elems ndens radii temps (counter + radii.length) height rest

/-- `set_materials(elems, ndens, tot_height, tot_radius, temp=?)`: the
two-dimensional list of regions, numbered from 1 in row-major
axial-then-radial order. -/
def set_materials (elems : List String) (ndens : List ℚ)
    (tot_height tot_radius : ℚ) (temps : Option (List ℚ)) : List (List Material) :=
  set_materials_rows elems ndens (calc_radii tot_radius) temps 1 0
    (calc_heights tot_height)

/-- Nuclide labels of the uranyl-nitrate solution from `main`. -/
def elems0 : List String := ["h", "n", "o", "u-234", "u-235", "u-236", "u-238"]

/-- Number densities (a/b-cm) of the uranyl-nitrate solution from `main`:
`[6.258e-2, 1.569e-3, 3.576e-2, 1.060e-6, 1.686e-4, 4.350e-7, 1.170e-5]`. -/
def ndens0 : List ℚ :=
  [6258 / 10 ^ 5, 1569 / 10 ^ 6, 3576 / 10 ^ 5, 106 / 10 ^ 8,
   1686 / 10 ^ 7, 435 / 10 ^ 9, 117 / 10 ^ 7]

/-! ## Point kinetics (`transientmodel.py`: `propagate_neutrons`, and the
fission-distribution list comprehension in `main`) -/

/-- `propagate_neutrons(k_eff, lifetime, neutrons)`:
`neutrons * np.exp((k_eff - 1)/lifetime * c.DELTA_T)`. -/
noncomputable def propagate_neutrons (k_eff lifetime neutrons : ℝ) : ℝ :=
  neutrons * Real.exp ((k_eff - 1) / lifetime * DELTA_T)

/-- Fission distribution from `main`:
`fissions = [frac * total_neutrons / nubar for frac in fission_profile]`.
Each element's division raises `ZeroDivisionError` exactly when
`nubar = 0` (so an empty profile never raises). -/
def distribute_fissions (total_neutrons nubar : ℚ) :
    List ℚ → Option (List ℚ)
  | [] => some []
  | frac :: rest =>
    if nubar = 0 then none
    else (distribute_fissions total_neutrons nubar rest).map
      (fun fs => frac * total_neutrons / nubar :: fs)

/-! ## Report parsing (`tm_fileops.py`) -/

/-- Abstraction of one line of a solver report: for each substring test and
regular-expression pattern used by `tm_fileops.py`, what that test or
pattern yields on the line.  A `none` match paired with a `true` substring
flag models a malformed line (the `in` test succeeds but `re.findall`
returns nothing, so indexing `matches[0]` raises `IndexError`). -/
structure OutLine where
  hasLifetime : Bool := false
  ltMatch : Option ℚ := none
  hasKeff : Bool := false
  keMatch : Option (ℚ × ℚ) := none
  hasNubar : Bool := false
  nbMatch : Option ℚ := none
  hasFissionDensities : Bool := false
  hasFrequency : Bool := false
  fisMatch : Option (ℕ × ℚ) := none
  hasTotalRegionVolume : Bool := false
  hasTotalMixtureVolume : Bool := false
  hasTotalMixtureMass : Bool := false
  hasBiasing : Bool := false
  volMatch : Option (ℕ × ℚ) := none
  massMatch : Option (ℕ × ℚ) := none
  deriving DecidableEq, Repr

/-- Python's `round` to 0 digits: round half to even. -/
def round_half_even (x : ℚ) : ℤ :=
  if x - ⌊x⌋ = 1 / 2 then (if Even ⌊x⌋ then ⌊x⌋ else ⌊x⌋ + 1) else round x

/-- Python's `round(x, 5)`. -/
def round5 (x : ℚ) : ℚ := (round_half_even (x * 100000) : ℚ) / 100000

/-- One field test of `get_transient`: when the substring is present, a
failed pattern match raises (`none`); otherwise the matched value replaces
the stored one. -/
def scanField {α : Type} (has : Bool) (mat : Option α) (cur : Option α) :
    Option (Option α) :=
  if has then match mat with
    | none => none
    | some v => some (some v)
  else some cur

/-- Loop of `get_transient`: `lt`, `ke`, `nb` hold the last values bound to
`lifetime`, `(keff, maxkeff)` and `nubar`; `ke` stores
`maxkeff = round(keff + 2 * sigma, 5)` at match time as the source does.
Returning with any of them unbound raises `UnboundLocalError` (`none`). -/
def get_transient_loop (lt : Option ℚ) (ke : Option (ℚ × ℚ)) (nb : Option ℚ) :
    List OutLine → Option (ℚ × ℚ × ℚ × ℚ)
  | [] =>
    match lt, ke, nb with
    | some l, some kk, some n => some (l, kk.1, kk.2, n)
    | _, _, _ => none
  | line :: rest => do
    let lt2 ← scanField line.hasLifetime line.ltMatch lt
    let ke2 ← scanField line.hasKeff
      (line.keMatch.map (fun kv => (kv.1, round5 (kv.1 + 2 * kv.2)))) ke
    let nb2 ← scanField line.hasNubar line.nbMatch nb
    get_transient_loop lt2 ke2 nb2 rest

/-- `get_transient(filename)`: returns `(lifetime, keff, maxkeff, nubar)`. -/
def get_transient (lines : List OutLine) : Option (ℚ × ℚ × ℚ × ℚ) :=
  get_transient_loop none none none lines

/-- Loop of `get_volumes`: outside the section only the header test runs;
inside, the terminator flips `found` for the next line but the pattern is
still applied to the current line.  Region number 0 is skipped; a region
number beyond the list raises `IndexError` (`none`). -/
def get_volumes_loop (found : Bool) (volumes : List ℚ) :
    List OutLine → Option (List ℚ)
  | [] => some volumes
  | line :: rest =>
    if found then
      let found2 := !line.hasTotalMixtureVolume
      match line.volMatch with
      | some iv =>
        if iv.1 ≠ 0 then
          if NUM_MATERIALS ≤ iv.1 - 1 then none
          else get_volumes_loop found2 (volumes.set (iv.1 - 1) iv.2) rest
        else get_volumes_loop found2 volumes rest
      | none => get_volumes_loop found2 volumes rest
    else get_volumes_loop line.hasTotalRegionVolume volumes rest

/-- `get_volumes(filename)`: starts from `[0.0] * NUM_MATERIALS`. -/
def get_volumes (lines : List OutLine) : Option (List ℚ) :=
  get_volumes_loop false (List.replicate NUM_MATERIALS 0) lines

/-- Loop of `get_masses`: the section opens on a line containing both
"total mixture volume" and "total mixture mass", closes at "biasing
information".  `masses[id - 1]` with `id = 0` is Python negative indexing
and writes the last slot; `id - 1 ≥ NUM_MATERIALS` raises `IndexError`. -/
def get_masses_loop (found : Bool) (masses : List ℚ) :
    List OutLine → Option (List ℚ)
  | [] => some masses
  | line :: rest =>
    if found then
      let found2 := !line.hasBiasing
      match line.massMatch with
      | some iv =>
        if iv.1 = 0 then
          get_masses_loop found2 (masses.set (NUM_MATERIALS - 1) iv.2) rest
        else if NUM_MATERIALS ≤ iv.1 - 1 then none
        else get_masses_loop found2 (masses.set (iv.1 - 1) iv.2) rest
      | none => get_masses_loop found2 masses rest
    else
      get_masses_loop (line.hasTotalMixtureVolume && line.hasTotalMixtureMass)
        masses rest

/-- `get_masses(filename)`: starts from `[0.0] * NUM_MATERIALS`. -/
def get_masses (lines : List OutLine) : Option (List ℚ) :=
  get_masses_loop false (List.replicate NUM_MATERIALS 0) lines

/-- Loop of `count_fissions`: accumulates the fission sum and the raw
profile; the void wrapper region `NUM_MATERIALS + 1` is skipped.  Region
number 0 writes the last slot (Python negative indexing); a region number
beyond the list raises `IndexError`. -/
def count_fissions_loop (found : Bool) (profile : List ℚ) (fissionsum : ℚ) :
    List OutLine → Option (List ℚ × ℚ)
  | [] => some (profile, fissionsum)
  | line :: rest =>
    if found then
      let found2 := !line.hasFrequency
      match line.fisMatch with
      | some iv =>
        if iv.1 ≠ NUM_MATERIALS + 1 then
          if iv.1 = 0 then
            count_fissions_loop found2 (profile.set (NUM_MATERIALS - 1) iv.2)
              (fissionsum + iv.2) rest
          else if NUM_MATERIALS ≤ iv.1 - 1 then none
          else count_fissions_loop found2 (profile.set (iv.1 - 1) iv.2)
            (fissionsum + iv.2) rest
        else count_fissions_loop found2 profile fissionsum rest
      | none => count_fissions_loop found2 profile fissionsum rest
    else count_fissions_loop line.hasFissionDensities profile fissionsum rest

/-- `count_fissions(filename)`: after the scan every profile entry is divided
by the fission sum, raising `ZeroDivisionError` when the sum is 0 (for
instance when the fission-density section is absent). -/
def count_fissions (lines : List OutLine) : Option (List ℚ) :=
  (count_fissions_loop false (List.replicate NUM_MATERIALS 0) 0 lines).bind
    (fun ps => if ps.2 = 0 then none else some (ps.1.map (fun p => p / ps.2)))

/-- Report line carrying a well-formed neutron-lifetime record. -/
def ltLine (v : ℚ) : OutLine := { hasLifetime := true, ltMatch := some v }

/-- Report line carrying a well-formed best-estimate k-eff record with its
one-sigma uncertainty. -/
def keLine (k sigma : ℚ) : OutLine := { hasKeff := true, keMatch := some (k, sigma) }

/-- Report line carrying a well-formed system nu-bar record. -/
def nbLine (v : ℚ) : OutLine := { hasNubar := true, nbMatch := some v }

/-- Baseline read of one report as `main` performs it: volumes, then masses,
then the transient quantities.  Any raise propagates; otherwise all three
results are returned. -/
def query_report (lines : List OutLine) :
    Option (List ℚ × List ℚ × (ℚ × ℚ × ℚ × ℚ)) := do
  let volumes ← get_volumes lines
  let masses ← get_masses lines
  let t ← get_transient lines
  return (volumes, masses, t)

/-! ## Deck generation (`tm_fileops.py`: `write_file`) -/

/-- One line of the generated solver input deck.  Fixed text lines are
collapsed into argument-free constructors; lines interpolating data carry
that data. -/
inductive DeckLine where
  | headerComment
  | batchArgs
  | csas6
  | titleLine
  | xslib
  | readComposition
  | compositionEntry (elem : String) (matnum : ℕ) (nden temp : ℚ)
  | endComposition
  | readCelldata
  | celldataMultiregion
  | celldataZone (radius : ℚ)
  | celldataEndZone
  | endCelldata
  | readParameter
  | paramGen
  | paramHtm
  | paramWrs
  | endParameter
  | readGeometry
  | globalUnit
  | comGlobalUnit
  | cylinder (matnum : ℕ) (radius height base_height : ℚ)
  | media (matnum : ℕ) (excluded : Option ℕ)
  | mediaVoid (voidnum : ℕ) (excluded : List ℕ)
  | boundary (matnum : ℕ)
  | endGeometry
  | readVolume
  | volumeTypeTrace
  | endVolume
  | endData
  | endFile
  deriving DecidableEq, Repr

/-- `Material.__str__`: one composition line per element, pairing
`elems[ind]` with `ndens[ind]` (the source indexes the parallel lists by
position). -/
def material_str (m : Material) : List DeckLine :=
  (m.elems.zip m.ndens).map
    (fun p => DeckLine.compositionEntry p.1 m.matnum p.2 m.temp)

/-- `Material.geometry_string()`: one cylinder record. -/
def geometry_string (m : Material) : DeckLine :=
  DeckLine.cylinder m.matnum m.radius m.height m.base_height

/-- Media lines of `write_file`: per level, each region's media record
excludes the previous region of the level except for the level's first. -/
def media_lines (materials : List (List Material)) : List DeckLine :=
  materials.flatMap (fun level =>
    level.enum.map (fun p =>
      DeckLine.media p.2.matnum
        (if p.1 ≠ 0 then some (p.2.matnum - 1) else none)))

/-- `write_file(filename, materials, tot_height, volcalc)`: the deck in the
exact order the source writes it.  The `read volume` block is written only
when `volcalc` is true. -/
def write_file (materials : List (List Material)) (tot_height : ℚ)
    (volcalc : Bool) : List DeckLine :=
  [DeckLine.headerComment, DeckLine.batchArgs, DeckLine.csas6,
   DeckLine.titleLine, DeckLine.xslib, DeckLine.readComposition]
  ++ materials.flatMap (fun level => level.flatMap material_str)
  ++ [DeckLine.endComposition, DeckLine.readCelldata,
      DeckLine.celldataMultiregion, DeckLine.celldataZone RAD,
      DeckLine.celldataEndZone, DeckLine.endCelldata, DeckLine.readParameter,
      DeckLine.paramGen, DeckLine.paramHtm, DeckLine.paramWrs,
      DeckLine.endParameter, DeckLine.readGeometry, DeckLine.globalUnit,
      DeckLine.comGlobalUnit]
  ++ materials.flatMap (fun level => level.map geometry_string)
  ++ [DeckLine.cylinder (NUM_MATERIALS + 1) (RAD + 1) (tot_height + 1) (-1)]
  ++ media_lines materials
  ++ [DeckLine.mediaVoid (NUM_MATERIALS + 1)
        ((List.range' 1 NUM_MATERIALS).filter (fun num => num % NUM_RADIAL = 0)),
      DeckLine.boundary (NUM_MATERIALS + 1), DeckLine.endGeometry]
  ++ (if volcalc then
        [DeckLine.readVolume, DeckLine.volumeTypeTrace, DeckLine.endVolume]
      else [])
  ++ [DeckLine.endData, DeckLine.endFile]

/-- Deck written by one tick of the expansion loop of `main`:
`fo.write_file(filename, materials, tot_height, volcalc=True)` — the
argument is the literal `True` in the source. -/
def expansion_deck (materials : List (List Material)) (tot_height : ℚ) :
    List DeckLine :=
  write_file materials tot_height true

/-! ## Control flow of `main` (`transientmodel.py`) -/

/-- Kind of a simulation tick of `main`. -/
inductive TickKind where
  | accumulation
  | expansion
  deriving DecidableEq, Repr

/-- Tick sequence of `main` after initialization, abstracted over the k-eff
values that `get_transient` yields report after report.  The material
addition (accumulation) loop `while keff < 1.01` is commented out in the
source, so the only loop that executes is the expansion loop
`while keff > 1.0`: each of its ticks consumes the next report's k-eff.
The sequence ends when the loop condition fails (or when no further report
is available). -/
def main_ticks : ℚ → List ℚ → List TickKind
  | _, [] => []
  | keff, r :: rest =>
    if keff > 1 then TickKind.expansion :: main_ticks r rest else []

/-! ## Claims -/

/-- Claim C4: building the grid with `NUM_AXIAL = 4`, `NUM_RADIAL = 3`,
`totalHeight = 53`, `totalRadius = 15` yields exactly 12 regions with
contiguous ids 1..12 in row-major axial-then-radial order, row heights
`[13.25, 26.5, 39.75, 53.0]`, column radii `[5.0, 10.0, 15.0]`, and each
row's `base_height` equal to the cumulative height of the row below
(0 for the first row). -/
theorem c4_grid_shape :
    calc_heights 53 = [53 / 4, 53 / 2, 159 / 4, 53] ∧
    calc_radii 15 = [5, 10, 15] ∧
    (set_materials elems0 ndens0 53 15 none).map (List.map Material.matnum) =
      [[1, 2, 3], [4, 5, 6], [7, 8, 9], [10, 11, 12]] ∧
    (set_materials elems0 ndens0 53 15 none).map (List.map Material.height) =
      [[53 / 4, 53 / 4, 53 / 4], [53 / 2, 53 / 2, 53 / 2],
       [159 / 4, 159 / 4, 159 / 4], [53, 53, 53]] ∧
    (set_materials elems0 ndens0 53 15 none).map (List.map Material.radius) =
      [[5, 10, 15], [5, 10, 15], [5, 10, 15], [5, 10, 15]] ∧
    (set_materials elems0 ndens0 53 15 none).map (List.map Material.base_height) =
      [[0, 0, 0], [53 / 4, 53 / 4, 53 / 4], [53 / 2, 53 / 2, 53 / 2],
       [159 / 4, 159 / 4, 159 / 4]] := by
  refine ⟨?_, ?_, ?_, ?_, ?_, ?_⟩ <;>
    norm_num [set_materials, set_materials_rows, set_materials_row, calc_heights,
      calc_radii, NUM_AXIAL, NUM_RADIAL, List.range', mkMaterial]

/-- Claim C5: for every `kEff`, `lifetime > 0` and `population`,
`propagate_neutrons` returns `population * exp((kEff - 1)/lifetime * Δt)`
with the configured fixed timestep `Δt = 1e-3`; in particular at
`kEff = 1.005`, `lifetime = 1e-4`, `population = 1e10` the result is
`1e10 * exp(0.05)`. -/
theorem c5_propagate :
    (∀ k_eff lifetime neutrons : ℝ, 0 < lifetime →
      propagate_neutrons k_eff lifetime neutrons =
        neutrons * Real.exp ((k_eff - 1) / lifetime * DELTA_T)) ∧
    propagate_neutrons 1.005 1e-4 1e10 = 1e10 * Real.exp 0.05 := by
  constructor
  · intro k_eff lifetime neutrons _
    rfl
  · have h : ((1.005 : ℝ) - 1) / 1e-4 * DELTA_T = 0.05 := by
      norm_num [DELTA_T, TIMESTEP_MAGNITUDE]
    rw [propagate_neutrons, h]

/-- Witness for claim C5 at `kEff = 2`, `lifetime = 1`, `population = 1`. -/
theorem c5_witness :
    propagate_neutrons 2 1 1 = 1 * Real.exp ((2 - 1) / 1 * DELTA_T) :=
  c5_propagate.1 2 1 1 (by norm_num)

/-- Claim C6 counterexample: `append_height` does not reject non-positive
heights.  On a region initialised with volume 100 and height 10
(`base = 10`), `append_height (-5)` succeeds and returns the region with
height −5, volume −50 and negative number densities, although `-5 ≤ 0`. -/
theorem c6_counterexample :
    ((mkMaterial 1 ["h"] [1 / 100] 10 0 5 300).append_volume_mass_init 100 50).bind
      (Material.append_height (-5)) =
      some { mkMaterial 1 ["h"] [1 / 100] 10 0 5 300 with
        ndens := [-(1 / 50)], height := -5, volume := -50, base := 10, mass := 50,
        atoms := [10 ^ 24] } ∧
    (-5 : ℚ) ≤ 0 := by
  constructor
  · norm_num [mkMaterial, Material.append_volume_mass_init, Material.append_height]
  · norm_num

/-- Claim C6 amended: `append_height(newHeight)` performs no validation of
`newHeight`.  It fails (zero division in the number-density update) exactly
when `base * newHeight = 0`; for any `newHeight` with
`base * newHeight ≠ 0` — including strictly negative ones — it succeeds,
setting `height = newHeight`, `volume = base * newHeight` and rescaling the
number densities from the atom inventory. -/
theorem c6_append_height_no_validation (m : Material) (newh : ℚ) :
    (m.append_height newh = none ↔ m.base * newh = 0) ∧
    (m.base * newh ≠ 0 →
      ∃ m2, m.append_height newh = some m2 ∧ m2.height = newh ∧
        m2.volume = m.base * newh ∧ m2.atoms = m.atoms ∧
        m2.ndens = m.atoms.map (fun atom => atom * ((10 : ℚ) ^ 24)⁻¹ / (m.base * newh))) := by
  by_cases h : m.base * newh = 0
  · refine ⟨by simp [Material.append_height, h], fun hc => absurd h hc⟩
  · refine ⟨by simp [Material.append_height, h], fun _ => ?_⟩
    refine ⟨{ m with
      height := newh
      volume := m.base * newh
      ndens := m.atoms.map (fun atom => atom * ((10 : ℚ) ^ 24)⁻¹ / (m.base * newh)) },
      ?_, rfl, rfl, rfl, rfl⟩
    simp [Material.append_height, h]

/-- Witness for the amended claim C6: a region with `base = 10` accepts the
negative height −5. -/
theorem c6_witness :
    ∃ m2, Material.append_height (-5)
        { matnum := 1, elems := [], ndens := [], temp := 300, height := 10,
          base_height := 0, radius := 5, volume := 100, base := 10, mass := 50,
          delta_temp := 0, atoms := [], pressure := 101325 } = some m2 ∧
      m2.height = -5 ∧ m2.volume = (10 : ℚ) * (-5) ∧ m2.atoms = ([] : List ℚ) ∧
      m2.ndens = ([] : List ℚ).map (fun atom => atom * ((10 : ℚ) ^ 24)⁻¹ / ((10 : ℚ) * (-5))) :=
  (c6_append_height_no_validation
    { matnum := 1, elems := [], ndens := [], temp := 300, height := 10,
      base_height := 0, radius := 5, volume := 100, base := 10, mass := 50,
      delta_temp := 0, atoms := [], pressure := 101325 } (-5)).2 (by norm_num)

/-- Claim C7 counterexample: the fission distribution does not reject a
negative nu-bar.  With `population = 10`, `nuBar = -2 < 0` and profile
`[1]` it succeeds and returns `[-5]`. -/
theorem c7_counterexample :
    distribute_fissions 10 (-2) [1] = some [-5] ∧ (-2 : ℚ) < 0 := by
  constructor
  · norm_num [distribute_fissions, List.mapM, List.mapM.loop]
  · norm_num

/-- Claim C7 amended: the fission distribution
`[frac * population / nubar for frac in fission_profile]` fails (zero
division) exactly when `nuBar = 0` and the profile is non-empty; for every
`nuBar ≠ 0` — including negative values — it returns
`perRegion[i] = fissionProfile[i] * population / nuBar`. -/
theorem c7_distribute_fissions (total_neutrons nubar : ℚ) (fission_profile : List ℚ) :
    (nubar ≠ 0 → distribute_fissions total_neutrons nubar fission_profile =
      some (fission_profile.map (fun frac => frac * total_neutrons / nubar))) ∧
    (distribute_fissions total_neutrons nubar fission_profile = none ↔
      nubar = 0 ∧ fission_profile ≠ []) := by
  constructor
  · intro h
    induction fission_profile with
    | nil => simp [distribute_fissions]
    | cons frac rest ih => simp [distribute_fissions, if_neg h, ih]
  · by_cases h : nubar = 0
    · subst h
      cases fission_profile with
      | nil => simp [distribute_fissions]
      | cons frac rest => simp [distribute_fissions]
    · constructor
      · intro hc
        induction fission_profile with
        | nil => simp [distribute_fissions] at hc
        | cons frac rest ih =>
          simp only [distribute_fissions, if_neg h, Option.map_eq_none'] at hc
          exact absurd (ih hc).1 h
      · rintro ⟨h0, _⟩
        exact absurd h0 h

/-- Witness for the amended claim C7: `nuBar = 2` distributes 10 neutrons
over the one-region profile `[1]` as `[5]`. -/
theorem c7_witness : distribute_fissions 10 2 [1] = some [5] := by
  rw [(c7_distribute_fissions 10 2 [1]).1 (by norm_num)]
  norm_num

/-- Helper for claim C3: `append_height` sequences preserve the atom
inventory, the base, and the mass, and re-establish
`volume = base * height` and the density relation after every call, as long
as the base and every requested height are non-zero. -/
lemma applyHeights_inv (hs : List ℚ) :
    ∀ m : Material, m.base ≠ 0 →
      m.volume = m.base * m.height →
      m.ndens = m.atoms.map (fun atom => atom * ((10 : ℚ) ^ 24)⁻¹ / m.volume) →
      (∀ h ∈ hs, h ≠ 0) →
      ∃ m2, applyHeights m hs = some m2 ∧
        m2.atoms = m.atoms ∧ m2.base = m.base ∧ m2.mass = m.mass ∧
        m2.height = hs.getLastD m.height ∧
        m2.volume = m2.base * m2.height ∧
        m2.ndens = m2.atoms.map (fun atom => atom * ((10 : ℚ) ^ 24)⁻¹ / m2.volume) := by
  induction hs with
  | nil =>
    intro m hb hv hn _
    exact ⟨m, rfl, rfl, rfl, rfl, rfl, hv, hn⟩
  | cons h t ih =>
    intro m hb hv hn hall
    have hh : h ≠ 0 := hall h (List.mem_cons_self h t)
    have hvol : m.base * h ≠ 0 := mul_ne_zero hb hh
    have happ : m.append_height h = some { m with
      height := h
      volume := m.base * h
      ndens := m.atoms.map (fun atom => atom * ((10 : ℚ) ^ 24)⁻¹ / (m.base * h)) } := by
      simp [Material.append_height, hvol]
    obtain ⟨m2, hrun, hat, hbase, hmass, hht, hvv, hnn⟩ :=
      ih { m with
        height := h
        volume := m.base * h
        ndens := m.atoms.map (fun atom => atom * ((10 : ℚ) ^ 24)⁻¹ / (m.base * h)) }
        hb rfl rfl (fun x hx => hall x (List.mem_cons_of_mem h hx))
    refine ⟨m2, ?_, hat, hbase, hmass, ?_, hvv, hnn⟩
    · simp [applyHeights, happ, hrun]
    · rw [List.getLastD_cons]
      exact hht

/-- Claim C3: after `append_volume_mass_init` with positive volume on a
region of positive height, any sequence of `append_height` calls with
positive heights leaves the atom inventory unchanged, and after each call
`ndens[i] = atoms[i] * 1e-24 / volume` with `volume = base * newHeight`
(the last requested height). -/
theorem c3_atom_conservation (m : Material) (v mass : ℚ) (hs : List ℚ)
    (hv : 0 < v) (hh : 0 < m.height) (hhs : ∀ h ∈ hs, 0 < h) :
    ∃ m1 m2, m.append_volume_mass_init v mass = some m1 ∧
      applyHeights m1 hs = some m2 ∧
      m2.atoms = m1.atoms ∧
      m2.ndens = m2.atoms.map (fun atom => atom * ((10 : ℚ) ^ 24)⁻¹ / m2.volume) ∧
      m2.base = m1.base ∧
      m2.height = hs.getLastD m1.height ∧
      m2.volume = m2.base * m2.height := by
  have hh0 : m.height ≠ 0 := ne_of_gt hh
  have hv0 : v ≠ 0 := ne_of_gt hv
  have hinit : m.append_volume_mass_init v mass = some { m with
    volume := v
    mass := mass
    atoms := m.ndens.map (fun nden => nden * (10 : ℚ) ^ 24 * v)
    base := v / m.height } := by
    simp [Material.append_volume_mass_init, hh0]
  have hnd : m.ndens = (m.ndens.map (fun nden => nden * (10 : ℚ) ^ 24 * v)).map
      (fun atom => atom * ((10 : ℚ) ^ 24)⁻¹ / v) := by
    rw [List.map_map]
    have hfun : ((fun atom : ℚ => atom * ((10 : ℚ) ^ 24)⁻¹ / v) ∘
        (fun nden : ℚ => nden * (10 : ℚ) ^ 24 * v)) = id := by
      funext nden
      have h24 : ((10 : ℚ) ^ 24) ≠ 0 := by norm_num
      simp only [Function.comp_apply, id_eq]
      field_simp
      ring
    rw [hfun, List.map_id]
  obtain ⟨m2, hrun, hat, hbase, hmass, hht, hvv, hnn⟩ :=
    applyHeights_inv hs
      { m with
        volume := v
        mass := mass
        atoms := m.ndens.map (fun nden => nden * (10 : ℚ) ^ 24 * v)
        base := v / m.height }
      (div_ne_zero hv0 hh0) (div_mul_cancel₀ v hh0).symm hnd
      (fun x hx => ne_of_gt (hhs x hx))
  exact ⟨_, m2, hinit, hrun, hat, hnn, hbase, hht, hvv⟩

/-- Witness for claim C3: the region of the spec scenario (volume 100,
height 10, base 10) resized via `append_height 12`. -/
theorem c3_witness : ∃ m1 m2,
    (mkMaterial 1 ["h"] [1 / 100] 10 0 5 300).append_volume_mass_init 100 50 = some m1 ∧
    applyHeights m1 [12] = some m2 ∧
    m2.atoms = m1.atoms ∧
    m2.ndens = m2.atoms.map (fun atom => atom * ((10 : ℚ) ^ 24)⁻¹ / m2.volume) ∧
    m2.base = m1.base ∧
    m2.height = [(12 : ℚ)].getLastD m1.height ∧
    m2.volume = m2.base * m2.height :=
  c3_atom_conservation (mkMaterial 1 ["h"] [1 / 100] 10 0 5 300) 100 50 [12]
    (by norm_num) (by norm_num [mkMaterial]) (by norm_num)

/-- Claim C10: a freshly constructed region has `base = 0` and `volume = 0`,
so every `append_height` call on it computes `volume = base * newHeight = 0`
and its number-density update divides by zero (fails); after
`append_volume_mass_init` with strictly positive volume on a region of
strictly positive height, `append_height` succeeds for every positive new
height. -/
theorem c10_division_well_defined :
    (∀ (matnum : ℕ) (elems : List String) (ndens : List ℚ)
        (height base_height radius temp newh : ℚ),
      (mkMaterial matnum elems ndens height base_height radius temp).base = 0 ∧
      (mkMaterial matnum elems ndens height base_height radius temp).volume = 0 ∧
      (mkMaterial matnum elems ndens height base_height radius temp).append_height
        newh = none) ∧
    (∀ (m m1 : Material) (v mass newh : ℚ), 0 < v → 0 < m.height → 0 < newh →
      m.append_volume_mass_init v mass = some m1 →
      ∃ m2, m1.append_height newh = some m2) := by
  constructor
  · intro matnum elems ndens height base_height radius temp newh
    refine ⟨rfl, rfl, ?_⟩
    simp [mkMaterial, Material.append_height]
  · intro m m1 v mass newh hv hh hn hinit
    have hh0 : m.height ≠ 0 := ne_of_gt hh
    rw [Material.append_volume_mass_init, if_neg hh0] at hinit
    have hb : m1.base = v / m.height := by
      rw [← Option.some.inj hinit]
    have hvol : m1.base * newh ≠ 0 :=
      mul_ne_zero (ne_of_gt (hb ▸ div_pos hv hh)) (ne_of_gt hn)
    refine ⟨{ m1 with
      height := newh
      volume := m1.base * newh
      ndens := m1.atoms.map (fun atom => atom * ((10 : ℚ) ^ 24)⁻¹ / (m1.base * newh)) }, ?_⟩
    simp [Material.append_height, hvol]

/-- Witness for claim C10: the initialised region of the spec scenario
accepts the positive height 12. -/
theorem c10_witness : ∃ m2,
    Material.append_height 12 { mkMaterial 1 ["h"] [1 / 100] 10 0 5 300 with
      volume := 100
      mass := 50
      atoms := [10 ^ 24]
      base := 10 } = some m2 :=
  c10_division_well_defined.2 (mkMaterial 1 ["h"] [1 / 100] 10 0 5 300)
    { mkMaterial 1 ["h"] [1 / 100] 10 0 5 300 with
      volume := 100
      mass := 50
      atoms := [10 ^ 24]
      base := 10 }
    100 50 12 (by norm_num) (by norm_num [mkMaterial]) (by norm_num)
    (by norm_num [mkMaterial, Material.append_volume_mass_init])

/-- Helper for claim C1: the tick sequence of `main` never contains an
accumulation tick, because the material-addition loop is commented out in
the source. -/
lemma accumulation_not_mem_main_ticks :
    ∀ (reports : List ℚ) (keff : ℚ), TickKind.accumulation ∉ main_ticks keff reports := by
  intro reports
  induction reports with
  | nil => intro keff; simp [main_ticks]
  | cons r rest ih =>
    intro keff
    by_cases h : keff > 1 <;> simp [main_ticks, h, ih r]

/-- Claim C1 counterexample: with a baseline k-eff of 1.005, strictly below
the 1.01 ceiling, `main` executes an expansion tick immediately — no
accumulation tick ever runs and no accumulation-to-expansion transition
(k-eff reaching the ceiling) precedes the first expansion tick. -/
theorem c1_counterexample :
    main_ticks (201 / 200) [9 / 10] = [TickKind.expansion] ∧
    (201 / 200 : ℚ) < 101 / 100 ∧
    TickKind.accumulation ∉ main_ticks (201 / 200) [9 / 10] := by
  have h : main_ticks (201 / 200) [9 / 10] = [TickKind.expansion] := by
    norm_num [main_ticks]
  refine ⟨h, by norm_num, ?_⟩
  rw [h]
  simp

/-- Claim C1 amended: the accumulation loop is disabled (commented out) in
the source, so `main` executes no accumulation tick at all; after
initialization it runs expansion ticks while the reported k-eff exceeds the
floor 1.0, stopping at the first report at or below it. -/
theorem c1_no_accumulation_phase (keff : ℚ) (reports : List ℚ) :
    TickKind.accumulation ∉ main_ticks keff reports ∧
    (keff ≤ 1 → main_ticks keff reports = []) ∧
    (∀ r rest, 1 < keff → main_ticks keff (r :: rest) =
      TickKind.expansion :: main_ticks r rest) := by
  refine ⟨accumulation_not_mem_main_ticks reports keff, ?_, ?_⟩
  · intro h
    cases reports with
    | nil => rfl
    | cons r rest => simp [main_ticks, not_lt.mpr h]
  · intro r rest h
    simp [main_ticks, h]

/-- Witness for the amended claim C1: a supercritical report of 1.5 produces
one expansion tick before the subcritical report 0.5 stops the loop. -/
theorem c1_witness : main_ticks (3 / 2) [1 / 2] = [TickKind.expansion] := by
  have h := (c1_no_accumulation_phase (3 / 2) [1 / 2]).2.2 (1 / 2) [] (by norm_num)
  rw [h]
  rfl

/-- Claim C2 (code bug evaluation): every expansion tick writes its deck via
`write_file(..., volcalc=True)`, so — contrary to the adjacent source
comment and the spec — the generated deck does contain the
volume-calculation directive; it is omitted exactly when `volcalc` is
false.  The rest of the claim holds: `expand` leaves each region's mass and
base untouched and derives the volume purely from the local arithmetic
`volume = base * newHeight`, and the expansion loop never reads volumes or
masses back from the report. -/
theorem c2_expansion_volcalc :
    DeckLine.readVolume ∈ expansion_deck (set_materials elems0 ndens0 53 15 none) 53 ∧
    DeckLine.readVolume ∉ write_file (set_materials elems0 ndens0 53 15 none) 53 false ∧
    (∀ (alpha : ℚ) (m m2 : Material), Material.expand alpha m = some m2 →
      m2.mass = m.mass ∧ m2.base = m.base ∧ m2.volume = m2.base * m2.height) := by
  refine ⟨?_, ?_, ?_⟩
  · simp [expansion_deck, write_file]
  · simp [write_file, set_materials, set_materials_rows, set_materials_row,
      calc_heights, calc_radii, NUM_AXIAL, NUM_RADIAL, List.range', mkMaterial,
      material_str, geometry_string, media_lines, elems0, ndens0, NUM_MATERIALS, RAD]
  · intro alpha m m2 hx
    rw [Material.expand] at hx
    by_cases hb : m.base = 0
    · rw [if_pos hb] at hx
      exact absurd hx (by simp)
    · rw [if_neg hb, Material.append_height] at hx
      by_cases hv : m.base * (m.height + m.delta_temp * m.volume * alpha / m.base) = 0
      · rw [if_pos hv] at hx
        exact absurd hx (by simp)
      · rw [if_neg hv] at hx
        rw [← Option.some.inj hx]
        exact ⟨rfl, rfl, rfl⟩

/-- Witness for claim C2: an already-consistent region (base 10, height 10,
volume 100, zero recorded temperature delta) expands with coefficient 0 and
keeps its mass, base, and the local volume arithmetic. -/
theorem c2_witness :
    ({ matnum := 1, elems := [], ndens := [], temp := 300, height := 10,
       base_height := 0, radius := 5, volume := 100, base := 10, mass := 50,
       delta_temp := 0, atoms := [], pressure := 101325 } : Material).mass =
      ({ matnum := 1, elems := [], ndens := [], temp := 300, height := 10,
         base_height := 0, radius := 5, volume := 100, base := 10, mass := 50,
         delta_temp := 0, atoms := [], pressure := 101325 } : Material).mass ∧
    ({ matnum := 1, elems := [], ndens := [], temp := 300, height := 10,
       base_height := 0, radius := 5, volume := 100, base := 10, mass := 50,
       delta_temp := 0, atoms := [], pressure := 101325 } : Material).base =
      ({ matnum := 1, elems := [], ndens := [], temp := 300, height := 10,
         base_height := 0, radius := 5, volume := 100, base := 10, mass := 50,
         delta_temp := 0, atoms := [], pressure := 101325 } : Material).base ∧
    ({ matnum := 1, elems := [], ndens := [], temp := 300, height := 10,
       base_height := 0, radius := 5, volume := 100, base := 10, mass := 50,
       delta_temp := 0, atoms := [], pressure := 101325 } : Material).volume =
      ({ matnum := 1, elems := [], ndens := [], temp := 300, height := 10,
         base_height := 0, radius := 5, volume := 100, base := 10, mass := 50,
         delta_temp := 0, atoms := [], pressure := 101325 } : Material).base *
      ({ matnum := 1, elems := [], ndens := [], temp := 300, height := 10,
         base_height := 0, radius := 5, volume := 100, base := 10, mass := 50,
         delta_temp := 0, atoms := [], pressure := 101325 } : Material).height :=
  c2_expansion_volcalc.2.2 0
    { matnum := 1, elems := [], ndens := [], temp := 300, height := 10,
      base_height := 0, radius := 5, volume := 100, base := 10, mass := 50,
      delta_temp := 0, atoms := [], pressure := 101325 }
    { matnum := 1, elems := [], ndens := [], temp := 300, height := 10,
      base_height := 0, radius := 5, volume := 100, base := 10, mass := 50,
      delta_temp := 0, atoms := [], pressure := 101325 }
    (by norm_num [Material.expand, Material.append_height])

/-- Claim C8 counterexample: a report carrying well-formed k-eff, lifetime
and nu-bar records but no volume table and no mass table is not rejected:
the baseline read returns a result whose per-region volumes and masses are
all zero.  The second conjunct certifies that no line of the report carries
any volume or mass data. -/
theorem c8_counterexample :
    query_report [ltLine (1 / 10000), keLine 1 0, nbLine (5 / 2)] =
      some (List.replicate NUM_MATERIALS 0, List.replicate NUM_MATERIALS 0,
        (1 / 10000, 1, 1, 5 / 2)) ∧
    ([ltLine (1 / 10000), keLine 1 0, nbLine (5 / 2)].all
      (fun l => l.volMatch.isNone && l.massMatch.isNone &&
        !l.hasTotalRegionVolume &&
        !(l.hasTotalMixtureVolume && l.hasTotalMixtureMass))) = true := by
  constructor
  · have hR : round5 (1 + 2 * (0 : ℚ)) = 1 := by
      norm_num [round5, round_half_even, round_eq]
    have hR1 : round5 (1 : ℚ) = 1 := by
      norm_num [round5, round_half_even, round_eq]
    simp [query_report, get_volumes, get_volumes_loop, get_masses, get_masses_loop,
      get_transient, get_transient_loop, scanField, ltLine, keLine, nbLine, hR, hR1]
  · rfl

/-- Helper for claim C8: a malformed record line anywhere in the report — the
substring test fires but the pattern match is empty, so `matches[0]` raises
`IndexError` — makes the `get_transient` loop fail from any state. -/
lemma gt_loop_none_of_malformed :
    ∀ (lines : List OutLine) (lt : Option ℚ) (ke : Option (ℚ × ℚ)) (nb : Option ℚ),
      (∃ l ∈ lines,
        (l.hasLifetime = true ∧ l.ltMatch = none) ∨
        (l.hasKeff = true ∧ l.keMatch = none) ∨
        (l.hasNubar = true ∧ l.nbMatch = none)) →
      get_transient_loop lt ke nb lines = none := by
  intro lines
  induction lines with
  | nil =>
    intro lt ke nb h
    simp at h
  | cons line rest ih =>
    intro lt ke nb h
    cases hs1 : scanField line.hasLifetime line.ltMatch lt with
    | none => simp [get_transient_loop, hs1]
    | some lt2 =>
      cases hs2 : scanField line.hasKeff
          (line.keMatch.map (fun kv => (kv.1, round5 (kv.1 + 2 * kv.2)))) ke with
      | none => simp [get_transient_loop, hs1, hs2]
      | some ke2 =>
        cases hs3 : scanField line.hasNubar line.nbMatch nb with
        | none => simp [get_transient_loop, hs1, hs2, hs3]
        | some nb2 =>
          rcases h with ⟨l, hl, hml⟩
          rcases List.mem_cons.mp hl with rfl | hmem
          · rcases hml with ⟨h1, h2⟩ | ⟨h1, h2⟩ | ⟨h1, h2⟩
            · simp [scanField, h1, h2] at hs1
            · simp [scanField, h1, h2] at hs2
            · simp [scanField, h1, h2] at hs3
          · simp [get_transient_loop, hs1, hs2, hs3]
            exact ih lt2 ke2 nb2 ⟨l, hmem, hml⟩

/-- Helper for claim C8: a report whose lines never contain the "lifetime"
marker leaves `lifetime` unbound, so `get_transient` fails at its return. -/
lemma gt_loop_none_of_no_lifetime :
    ∀ (lines : List OutLine) (ke : Option (ℚ × ℚ)) (nb : Option ℚ),
      (∀ l ∈ lines, l.hasLifetime = false) →
      get_transient_loop none ke nb lines = none := by
  intro lines
  induction lines with
  | nil =>
    intro ke nb _
    cases ke <;> cases nb <;> rfl
  | cons line rest ih =>
    intro ke nb hall
    have hs1 : scanField line.hasLifetime line.ltMatch (none : Option ℚ) = some none := by
      simp [scanField, hall line (List.mem_cons_self line rest)]
    cases hs2 : scanField line.hasKeff
        (line.keMatch.map (fun kv => (kv.1, round5 (kv.1 + 2 * kv.2)))) ke with
    | none => simp [get_transient_loop, hs1, hs2]
    | some ke2 =>
      cases hs3 : scanField line.hasNubar line.nbMatch nb with
      | none => simp [get_transient_loop, hs1, hs2, hs3]
      | some nb2 =>
        simp [get_transient_loop, hs1, hs2, hs3]
        exact ih ke2 nb2 (fun l hl => hall l (List.mem_cons_of_mem line hl))

/-- Helper for claim C8: a report without the "best estimate system k-eff"
marker leaves `keff` and `maxkeff` unbound. -/
lemma gt_loop_none_of_no_keff :
    ∀ (lines : List OutLine) (lt : Option ℚ) (nb : Option ℚ),
      (∀ l ∈ lines, l.hasKeff = false) →
      get_transient_loop lt none nb lines = none := by
  intro lines
  induction lines with
  | nil =>
    intro lt nb _
    cases lt <;> cases nb <;> rfl
  | cons line rest ih =>
    intro lt nb hall
    have hs2 : scanField line.hasKeff
        (line.keMatch.map (fun kv => (kv.1, round5 (kv.1 + 2 * kv.2))))
        (none : Option (ℚ × ℚ)) = some none := by
      simp [scanField, hall line (List.mem_cons_self line rest)]
    cases hs1 : scanField line.hasLifetime line.ltMatch lt with
    | none => simp [get_transient_loop, hs1]
    | some lt2 =>
      cases hs3 : scanField line.hasNubar line.nbMatch nb with
      | none => simp [get_transient_loop, hs1, hs2, hs3]
      | some nb2 =>
        simp [get_transient_loop, hs1, hs2, hs3]
        exact ih lt2 nb2 (fun l hl => hall l (List.mem_cons_of_mem line hl))

/-- Helper for claim C8: a report without the "system nu bar" marker leaves
`nubar` unbound. -/
lemma gt_loop_none_of_no_nubar :
    ∀ (lines : List OutLine) (lt : Option ℚ) (ke : Option (ℚ × ℚ)),
      (∀ l ∈ lines, l.hasNubar = false) →
      get_transient_loop lt ke none lines = none := by
  intro lines
  induction lines with
  | nil =>
    intro lt ke _
    cases lt <;> cases ke <;> rfl
  | cons line rest ih =>
    intro lt ke hall
    have hs3 : scanField line.hasNubar line.nbMatch (none : Option ℚ) = some none := by
      simp [scanField, hall line (List.mem_cons_self line rest)]
    cases hs1 : scanField line.hasLifetime line.ltMatch lt with
    | none => simp [get_transient_loop, hs1]
    | some lt2 =>
      cases hs2 : scanField line.hasKeff
          (line.keMatch.map (fun kv => (kv.1, round5 (kv.1 + 2 * kv.2)))) ke with
      | none => simp [get_transient_loop, hs1, hs2]
      | some ke2 =>
        simp [get_transient_loop, hs1, hs2, hs3]
        exact ih lt2 ke2 (fun l hl => hall l (List.mem_cons_of_mem line hl))

/-- Helper for claim C8: without the fission-density section header the scan
never enters the section, so profile and fission sum stay at their initial
values. -/
lemma cf_loop_no_section :
    ∀ (lines : List OutLine) (profile : List ℚ) (fissionsum : ℚ),
      (∀ l ∈ lines, l.hasFissionDensities = false) →
      count_fissions_loop false profile fissionsum lines = some (profile, fissionsum) := by
  intro lines
  induction lines with
  | nil =>
    intro profile fissionsum _
    rfl
  | cons line rest ih =>
    intro profile fissionsum hall
    have hstep : count_fissions_loop false profile fissionsum (line :: rest) =
        count_fissions_loop line.hasFissionDensities profile fissionsum rest := by
      simp [count_fissions_loop]
    rw [hstep, hall line (List.mem_cons_self line rest)]
    exact ih profile fissionsum (fun l hl => hall l (List.mem_cons_of_mem line hl))

/-- Helper for claim C8: without the "total region volume" header the volume
scan never starts and the initial list is returned unchanged. -/
lemma gv_loop_no_section :
    ∀ (lines : List OutLine) (volumes : List ℚ),
      (∀ l ∈ lines, l.hasTotalRegionVolume = false) →
      get_volumes_loop false volumes lines = some volumes := by
  intro lines
  induction lines with
  | nil =>
    intro volumes _
    rfl
  | cons line rest ih =>
    intro volumes hall
    have hstep : get_volumes_loop false volumes (line :: rest) =
        get_volumes_loop line.hasTotalRegionVolume volumes rest := by
      simp [get_volumes_loop]
    rw [hstep, hall line (List.mem_cons_self line rest)]
    exact ih volumes (fun l hl => hall l (List.mem_cons_of_mem line hl))

/-- Helper for claim C8: without a combined "total mixture volume"/"total
mixture mass" header the mass scan never starts and the initial list is
returned unchanged. -/
lemma gm_loop_no_section :
    ∀ (lines : List OutLine) (masses : List ℚ),
      (∀ l ∈ lines, (l.hasTotalMixtureVolume && l.hasTotalMixtureMass) = false) →
      get_masses_loop false masses lines = some masses := by
  intro lines
  induction lines with
  | nil =>
    intro masses _
    rfl
  | cons line rest ih =>
    intro masses hall
    have hstep : get_masses_loop false masses (line :: rest) =
        get_masses_loop (line.hasTotalMixtureVolume && line.hasTotalMixtureMass)
          masses rest := by
      simp [get_masses_loop]
    rw [hstep, hall line (List.mem_cons_self line rest)]
    exact ih masses (fun l hl => hall l (List.mem_cons_of_mem line hl))

/-- Claim C8 amended: for every report, missing or malformed k-eff, lifetime,
or nu-bar records make `get_transient` fail (failed pattern match at the
malformed line, or unbound local at the return), and a missing
fission-density section makes `count_fissions` fail (zero division when
normalizing); but missing per-region volume or mass tables are NOT
rejected: `get_volumes` and `get_masses` silently return their zero-filled
initial lists. -/
theorem c8_missing_fields :
    (∀ lines : List OutLine,
      (∃ l ∈ lines,
        (l.hasLifetime = true ∧ l.ltMatch = none) ∨
        (l.hasKeff = true ∧ l.keMatch = none) ∨
        (l.hasNubar = true ∧ l.nbMatch = none)) →
      get_transient lines = none) ∧
    (∀ lines : List OutLine, (∀ l ∈ lines, l.hasLifetime = false) →
      get_transient lines = none) ∧
    (∀ lines : List OutLine, (∀ l ∈ lines, l.hasKeff = false) →
      get_transient lines = none) ∧
    (∀ lines : List OutLine, (∀ l ∈ lines, l.hasNubar = false) →
      get_transient lines = none) ∧
    (∀ lines : List OutLine, (∀ l ∈ lines, l.hasFissionDensities = false) →
      count_fissions lines = none) ∧
    (∀ lines : List OutLine, (∀ l ∈ lines, l.hasTotalRegionVolume = false) →
      get_volumes lines = some (List.replicate NUM_MATERIALS 0)) ∧
    (∀ lines : List OutLine,
      (∀ l ∈ lines, (l.hasTotalMixtureVolume && l.hasTotalMixtureMass) = false) →
      get_masses lines = some (List.replicate NUM_MATERIALS 0)) := by
  refine ⟨?_, ?_, ?_, ?_, ?_, ?_, ?_⟩
  · intro lines h
    exact gt_loop_none_of_malformed lines none none none h
  · intro lines h
    exact gt_loop_none_of_no_lifetime lines none none h
  · intro lines h
    exact gt_loop_none_of_no_keff lines none none h
  · intro lines h
    exact gt_loop_none_of_no_nubar lines none none h
  · intro lines h
    simp [count_fissions, cf_loop_no_section lines (List.replicate NUM_MATERIALS 0) 0 h]
  · intro lines h
    exact gv_loop_no_section lines (List.replicate NUM_MATERIALS 0) h
  · intro lines h
    exact gm_loop_no_section lines (List.replicate NUM_MATERIALS 0) h

/-- Claim C9 counterexample: a report with best-estimate k-eff 1.0 and
one-sigma uncertainty 3.3e-6 yields a parsed k-eff+2σ of 1.00001 — the
value is rounded to five decimal places and differs from the exact
`keff + 2 * sigma = 1.0000066`. -/
theorem c9_counterexample :
    get_transient [ltLine (1 / 10000), keLine 1 (33 / 10 ^ 7), nbLine (5 / 2)] =
      some (1 / 10000, 1, 100001 / 100000, 5 / 2) ∧
    (100001 / 100000 : ℚ) ≠ 1 + 2 * (33 / 10 ^ 7) := by
  constructor
  · have hR : round5 (1 + 2 * (33 / 10 ^ 7)) = 100001 / 100000 := by
      norm_num [round5, round_half_even, round_eq]
    simp [get_transient, get_transient_loop, scanField, ltLine, keLine, nbLine, hR]
  · norm_num

/-- Claim C9 amended: for every parsed report the k-eff+2σ value equals
`round(keff + 2 * sigma, 5)` — the point estimate plus two times the
one-sigma uncertainty, rounded to five decimal places — rather than the
exact sum. -/
theorem c9_maxkeff_is_rounded (lifetime keff sigma nubar : ℚ) :
    get_transient [ltLine lifetime, keLine keff sigma, nbLine nubar] =
      some (lifetime, keff, round5 (keff + 2 * sigma), nubar) := by
  simp [get_transient, get_transient_loop, scanField, ltLine, keLine, nbLine]

/-- Witness for the amended claim C8 at concrete reports: a malformed k-eff
line, a report missing only nu-bar, a report without a fission-density
section, and a transient-only report without volume or mass tables. -/
theorem c8_witness :
    get_transient [ltLine 1, ({ hasKeff := true } : OutLine), nbLine 2] = none ∧
    get_transient [ltLine 1, keLine 1 0] = none ∧
    count_fissions [ltLine 1, keLine 1 0, nbLine 2] = none ∧
    get_volumes [ltLine 1, keLine 1 0, nbLine 2] = some (List.replicate NUM_MATERIALS 0) ∧
    get_masses [ltLine 1, keLine 1 0, nbLine 2] = some (List.replicate NUM_MATERIALS 0) :=
  ⟨c8_missing_fields.1 [ltLine 1, ({ hasKeff := true } : OutLine), nbLine 2]
    ⟨{ hasKeff := true }, by simp, Or.inr (Or.inl ⟨rfl, rfl⟩)⟩,
   c8_missing_fields.2.2.2.1 [ltLine 1, keLine 1 0] (by simp [ltLine, keLine]),
   c8_missing_fields.2.2.2.2.1 [ltLine 1, keLine 1 0, nbLine 2]
    (by simp [ltLine, keLine, nbLine]),
   c8_missing_fields.2.2.2.2.2.1 [ltLine 1, keLine 1 0, nbLine 2]
    (by simp [ltLine, keLine, nbLine]),
   c8_missing_fields.2.2.2.2.2.2 [ltLine 1, keLine 1 0, nbLine 2]
    (by simp [ltLine, keLine, nbLine])⟩

/-- Witness for the amended claim C9 at concrete report values. -/
theorem c9_witness :
    get_transient [ltLine 1, keLine 2 3, nbLine 4] =
      some (1, 2, round5 (2 + 2 * 3), 4) :=
  c9_maxkeff_is_rounded 1 2 3 4
